import Mathlib

/-!
Verification model of `src/src/lib/firebase/firestore.js`, the data-access layer
over a Firestore "restaurants" collection and its nested "ratings" subcollection.

Modelling conventions:
* JavaScript numbers are modelled as `Rat`; every numeric value appearing in the
  claims is small-integer valued, hence exact in double precision as well.
* A possibly-absent JavaScript value is `Option _`; `none` is `undefined`/absent,
  and JavaScript truthiness of a string is "present and non-empty".
* Firestore timestamps are instants modelled as `Int` (epoch milliseconds);
  `Timestamp.fromDate`/`toDate` preserve the instant and are modelled as identity.
* Thrown JavaScript errors are explicit `thrown`/error results; `console.log` /
  `console.error` calls are accumulated in an explicit log.
* The external store (Firestore) is modelled through its assumed contract:
  query values record the composed `where`/`orderBy` constraints without being
  executed, and the transaction primitive applies the body's writes atomically
  or leaves the store unchanged on failure.
-/

set_option autoImplicit false

namespace FirestoreJs

/-- A value appearing on the right-hand side of a `where(field, "==", v)` clause. -/
inductive QVal
  | str (s : String)
  | int (n : Int)
  deriving DecidableEq

/-- One equality predicate `where(field, "==", value)` attached to a query. -/
structure WhereEq where
  field : String
  value : QVal
  deriving DecidableEq

/-- Sort direction of an `orderBy` clause. -/
inductive OrderDir
  | asc
  | desc
  deriving DecidableEq

/-- One ordering predicate `orderBy(field, dir)` attached to a query. -/
structure OrderBy where
  field : String
  dir : OrderDir
  deriving DecidableEq

/-- A composed (unexecuted) Firestore query: the base collection plus the
`where` and `orderBy` constraints added so far, in order of application. -/
structure Query where
  wheres : List WhereEq
  orders : List OrderBy
  deriving DecidableEq

/-- `query(q, where(f, "==", v))`: a new query value with one more equality predicate. -/
def Query.addWhere (q : Query) (f : String) (v : QVal) : Query :=
  { q with wheres := q.wheres ++ [⟨f, v⟩] }

/-- `query(q, orderBy(f, dir))`: a new query value with one more ordering predicate. -/
def Query.addOrderBy (q : Query) (f : String) (d : OrderDir) : Query :=
  { q with orders := q.orders ++ [⟨f, d⟩] }

/-- `query(collection(db, "restaurants"))`: the unconstrained base query. -/
def emptyQuery : Query := ⟨[], []⟩

/-- The destructured filter argument `{ category, city, price, sort }`.
`price` is the symbol string (such as `"$$"`) as received from the UI. -/
structure Filters where
  category : Option String := none
  city : Option String := none
  price : Option String := none
  sort : Option String := none

/-- JavaScript truthiness of a possibly-absent string: `undefined` and `""` are falsy. -/
def truthyStr : Option String → Bool
  | none => false
  | some s => !(s == "")

/-- `applyQueryFilters` (firestore.js lines 98-122): successively reassigns `q`,
adding one equality predicate per truthy option, then the sort step:
`if (sort === "Rating" || !sort)` order by `avgRating` descending,
`else if (sort === "Review")` order by `numRatings` descending
(and in the remaining case no ordering predicate is added). -/
def applyQueryFilters (q : Query) (f : Filters) : Query :=
  let q1 := match f.category with
    | some c => if c == "" then q else q.addWhere "category" (QVal.str c)
    | none => q
  let q2 := match f.city with
    | some c => if c == "" then q1 else q1.addWhere "city" (QVal.str c)
    | none => q1
  let q3 := match f.price with
    | some p => if p == "" then q2 else q2.addWhere "price" (QVal.int p.length)
    | none => q2
  if f.sort == some "Rating" || !truthyStr f.sort then
    q3.addOrderBy "avgRating" OrderDir.desc
  else if f.sort == some "Review" then
    q3.addOrderBy "numRatings" OrderDir.desc
  else q3

/-- Follows the spec's words: the list of equality predicates demanded for a
filter configuration — one per present (truthy) option, on the corresponding
field, with `price` compared as the integer tier `price.length`. -/
def specEqPredicates (f : Filters) : List WhereEq :=
  (match f.category with
    | some c => if c == "" then [] else [⟨"category", QVal.str c⟩]
    | none => [])
  ++ (match f.city with
    | some c => if c == "" then [] else [⟨"city", QVal.str c⟩]
    | none => [])
  ++ (match f.price with
    | some p => if p == "" then [] else [⟨"price", QVal.int p.length⟩]
    | none => [])

/-- Follows the spec's (amended) words: the ordering predicates produced for a
sort option — `numRatings` descending for `"Review"`, `avgRating` descending
for `"Rating"` or a falsy sort, and none for any other value. -/
def specOrderings (f : Filters) : List OrderBy :=
  if f.sort == some "Review" then [⟨"numRatings", OrderDir.desc⟩]
  else if f.sort == some "Rating" || !truthyStr f.sort then [⟨"avgRating", OrderDir.desc⟩]
  else []

theorem addWhere_orders (q : Query) (f : String) (v : QVal) :
    (q.addWhere f v).orders = q.orders := rfl

theorem addOrderBy_wheres (q : Query) (f : String) (d : OrderDir) :
    (q.addOrderBy f d).wheres = q.wheres := rfl

/-- The equality predicates a composed query carries: the base query's, then one
per truthy filter option, in source order. -/
theorem applyQueryFilters_wheres (q : Query) (f : Filters) :
    (applyQueryFilters q f).wheres = q.wheres ++ specEqPredicates f := by
  rcases f with ⟨c, ci, p, s⟩
  simp only [applyQueryFilters, specEqPredicates]
  rcases c with _ | c <;> rcases ci with _ | ci <;> rcases p with _ | p <;>
    simp only [] <;>
    repeat' split
  all_goals simp [Query.addWhere, Query.addOrderBy]

/-- The ordering predicates a composed query carries: the base query's, then the
single ordering the sort step adds (or nothing, for a truthy unrecognized sort). -/
theorem applyQueryFilters_orders (q : Query) (f : Filters) :
    (applyQueryFilters q f).orders = q.orders ++ specOrderings f := by
  rcases f with ⟨c, ci, p, s⟩
  simp only [applyQueryFilters, specOrderings]
  rcases c with _ | c <;> rcases ci with _ | ci <;> rcases p with _ | p <;>
    simp only [] <;>
    repeat' split
  all_goals simp_all [Query.addWhere, Query.addOrderBy, truthyStr]

/-! ## Rating aggregation (firestore.js lines 42-93) -/

/-- The restaurant document's aggregate-relevant fields as read inside the
transaction; each stored field may be absent. `name` stands for the remaining
document fields the aggregation never touches. -/
structure RestaurantAgg where
  numRatings : Option Rat := none
  sumRating : Option Rat := none
  avgRating : Option Rat := none
  name : String := ""
  deriving DecidableEq

/-- The three statistics the transaction writes back. -/
structure AggValues where
  numRatings : Rat
  sumRating : Rat
  avgRating : Rat
  deriving DecidableEq

/-- Lines 48-50 of `updateWithRating`. `data` is the transactional read
(`restaurant.data()`), `none` when the document does not exist. JavaScript
truthiness on numbers: a stored count or sum of `0` is falsy, so
`data?.numRatings ? data.numRatings + 1 : 1` and `(data?.sumRating || 0)`
fall back exactly when the field is absent or zero. -/
def computeNewAgg (data : Option RestaurantAgg) (rating : Rat) : AggValues :=
  let newNumRatings : Rat :=
    match data with
    | some d =>
      match d.numRatings with
      | some n => if n = 0 then 1 else n + 1
      | none => 1
    | none => 1
  let curSum : Rat :=
    match data with
    | some d =>
      match d.sumRating with
      | some s => if s = 0 then 0 else s
      | none => 0
    | none => 0
  let newSumRating := curSum + rating
  ⟨newNumRatings, newSumRating, newSumRating / newNumRatings⟩

/-- A review payload as supplied by the caller; `timestamp` may or may not be
caller-supplied, `text`/`userName`/`userId` stand for the free-form fields. -/
structure Review where
  rating : Rat
  text : String := ""
  userName : String := ""
  userId : String := ""
  timestamp : Option Int := none
  deriving DecidableEq

/-- A review record as stored in the "ratings" subcollection. -/
structure StoredReview where
  rating : Rat
  text : String
  userName : String
  userId : String
  timestamp : Int
  deriving DecidableEq

/-- Lines 60-63: `{...review, timestamp: Timestamp.fromDate(new Date())}` —
spread the payload, then overwrite `timestamp` with the clock reading taken
inside the transaction body. -/
def stampReview (review : Review) (now : Int) : StoredReview :=
  ⟨review.rating, review.text, review.userName, review.userId, now⟩

/-- The slice of the store a single aggregation touches: the addressed
restaurant document (if it exists) and its "ratings" subcollection. -/
structure Store where
  restaurant : Option RestaurantAgg
  ratings : List StoredReview
  deriving DecidableEq

/-- The transaction body `updateWithRating` (lines 42-64): read the restaurant
document, compute the new statistics, update exactly the three aggregate fields
(Firestore `transaction.update` merges into an existing document and aborts the
transaction when the document is missing, hence `none`), and insert the stamped
review into the subcollection. -/
def updateWithRating (store : Store) (review : Review) (now : Int) : Option Store :=
  let agg := computeNewAgg store.restaurant review.rating
  match store.restaurant with
  | none => none
  | some d =>
    some { restaurant := some { d with numRatings := some agg.numRatings,
                                       sumRating := some agg.sumRating,
                                       avgRating := some agg.avgRating },
           ratings := store.ratings ++ [stampReview review now] }

/-- Errors surfaced by the module: the two argument-validation `throw new Error`
messages, and errors raised by the external store (read failure, exhausted
conflict retries, or an aborted transaction body), identified by a code. -/
inductive Err
  | invalidArgument (msg : String)
  | external (code : Nat)
  deriving DecidableEq

/-- A `console.log` / `console.error` entry. -/
inductive LogEntry
  | consoleLog (msg : String)
  | consoleError (msg : String) (e : Err)
  deriving DecidableEq

/-- Outcome of the awaited transaction. -/
inductive TxResult
  | ok
  | err (e : Err)
  deriving DecidableEq

/-- `runTransaction` per the external store's contract (spec section 6): if the
store signals a failure (`txFail = some code`, covering read failure and
irrecoverable conflict) or the body aborts, no write is applied and the error
is raised; otherwise the body's writes commit atomically. -/
def runTransaction (store : Store) (review : Review) (now : Int)
    (txFail : Option Nat) : Store × TxResult :=
  match txFail with
  | some code => (store, TxResult.err (Err.external code))
  | none =>
    match updateWithRating store review now with
    | some store2 => (store2, TxResult.ok)
    | none => (store, TxResult.err (Err.external 5))

/-- Result of a call to `addReviewToRestaurant`: the store afterwards, the
console output, the returned/thrown outcome, and how many store interactions
occurred (`doc`/`collection` build references client-side; `runTransaction`
is the store call). -/
structure AddResult where
  store : Store
  log : List LogEntry
  result : TxResult
  storeCalls : Nat
  deriving DecidableEq

/-- `addReviewToRestaurant` (lines 69-93): the two precondition checks precede
the `try` block and every store interaction; inside the `try`, any error is
logged once with `console.error` and then re-thrown unmodified. -/
def addReviewToRestaurant (store : Store) (restaurantId : Option String)
    (review : Option Review) (now : Int) (txFail : Option Nat) : AddResult :=
  if !truthyStr restaurantId then
    ⟨store, [], TxResult.err (Err.invalidArgument "No restaurant ID has been provided."), 0⟩
  else
    match review with
    | none =>
      ⟨store, [], TxResult.err (Err.invalidArgument "A valid review has not been provided."), 0⟩
    | some r =>
      match runTransaction store r now txFail with
      | (store2, TxResult.ok) => ⟨store2, [], TxResult.ok, 1⟩
      | (store2, TxResult.err e) =>
        ⟨store2,
         [LogEntry.consoleError "There was an error adding the rating to the restaurant" e],
         TxResult.err e, 1⟩

/-- Follows the spec's words: the current rating count, treating a
missing/undefined/zero stored count as 0. -/
def specCurrentNumRatings (data : Option RestaurantAgg) : Rat :=
  (data.bind RestaurantAgg.numRatings).getD 0

/-- Follows the spec's words: the current rating sum, defaulting to 0. -/
def specCurrentSumRating (data : Option RestaurantAgg) : Rat :=
  (data.bind RestaurantAgg.sumRating).getD 0

/-! ## Read and subscription helpers (firestore.js lines 128-255) -/

/-- Runtime errors of the JavaScript semantics relevant here: property access
or method call on `undefined` (`TypeError`), and reading a `let`/parameter
binding inside its temporal dead zone (`ReferenceError`). -/
inductive JsErr
  | typeError
  | referenceError
  deriving DecidableEq

/-- How a call ends: a normal return (`none` being `undefined`) or a thrown error. -/
inductive Outcome (α : Type)
  | ret (v : Option α)
  | thrown (e : JsErr)
  deriving DecidableEq

/-- Result of one helper call: its outcome, console output, and the number of
store interactions (`getDoc`, `getDocs`, `onSnapshot` registrations). -/
structure CallResult (α : Type) where
  outcome : Outcome α
  log : List LogEntry
  storeCalls : Nat
  deriving DecidableEq

/-- A restaurant document as stored; `timestamp` may be absent from the data. -/
structure RestaurantDoc where
  name : String := ""
  avgRating : Option Rat := none
  timestamp : Option Int := none
  deriving DecidableEq

/-- The document after the module's mapping `{...data, timestamp: data.timestamp.toDate()}`. -/
structure MappedRestaurant where
  name : String
  avgRating : Option Rat
  timestamp : Int
  deriving DecidableEq

/-- The "restaurants" collection keyed by document id. -/
def RestaurantsDb := List (String × RestaurantDoc)

/-- `getDoc(...).data()`: the stored document for an id, `none` when no such
document exists (an empty snapshot's `data()` is `undefined`). -/
def dbLookup (db : RestaurantsDb) (id : String) : Option RestaurantDoc :=
  (db.find? (fun kv => kv.fst == id)).map Prod.snd

/-- `getRestaurantById` (lines 170-183): a falsy id logs and returns
`undefined` with no store interaction; otherwise it fetches the snapshot and
maps it unconditionally — `docSnap.data().timestamp.toDate()` throws a
`TypeError` when the document is missing (`data()` is `undefined`) or when its
`timestamp` field is absent. -/
def getRestaurantById (db : RestaurantsDb) (restaurantId : Option String) :
    CallResult MappedRestaurant :=
  match restaurantId with
  | none => ⟨Outcome.ret none, [LogEntry.consoleLog "Error: Invalid ID received: "], 0⟩
  | some rid =>
    if rid == "" then
      ⟨Outcome.ret none, [LogEntry.consoleLog "Error: Invalid ID received: "], 0⟩
    else
      match dbLookup db rid with
      | none => ⟨Outcome.thrown JsErr.typeError, [], 1⟩
      | some d =>
        match d.timestamp with
        | none => ⟨Outcome.thrown JsErr.typeError, [], 1⟩
        | some t => ⟨Outcome.ret (some ⟨d.name, d.avgRating, t⟩), [], 1⟩

/-- `getRestaurantsSnapshot` (lines 146-165): a non-callable callback logs and
returns `undefined` with no store interaction; otherwise the query is composed
and the listener registered (the returned unsubscribe handle is modelled `()`).
`cbIsFunction` is `typeof cb === "function"`. -/
def getRestaurantsSnapshot (cbIsFunction : Bool) (f : Filters) : CallResult Unit :=
  if !cbIsFunction then
    ⟨Outcome.ret none, [LogEntry.consoleLog "Error: The callback parameter is not a function"], 0⟩
  else
    let _q := applyQueryFilters emptyQuery f
    ⟨Outcome.ret (some ()), [], 1⟩

/-- `getRestaurantSnapshotById` (lines 188-206): checks the id, then the
callback, before registering the listener. -/
def getRestaurantSnapshotById (restaurantId : Option String) (cbIsFunction : Bool) :
    CallResult Unit :=
  match restaurantId with
  | none => ⟨Outcome.ret none, [LogEntry.consoleLog "Error: Invalid ID received: "], 0⟩
  | some rid =>
    if rid == "" then
      ⟨Outcome.ret none, [LogEntry.consoleLog "Error: Invalid ID received: "], 0⟩
    else if !cbIsFunction then
      ⟨Outcome.ret none, [LogEntry.consoleLog "Error: The callback parameter is not a function"], 0⟩
    else
      ⟨Outcome.ret (some ()), [], 1⟩

/-- The "ratings" subcollections keyed by restaurant id. -/
def RatingsDb := List (String × List StoredReview)

/-- `getReviewsByRestaurantId` (lines 211-229): a falsy id logs and returns
`undefined` with no store interaction; otherwise the ordered query runs and the
results are mapped (stored reviews always carry a timestamp, so the mapping is
total; ordering is executed by the store). -/
def getReviewsByRestaurantId (rdb : RatingsDb) (restaurantId : Option String) :
    CallResult (List StoredReview) :=
  match restaurantId with
  | none => ⟨Outcome.ret none, [LogEntry.consoleLog "Error: Invalid restaurantId received: "], 0⟩
  | some rid =>
    if rid == "" then
      ⟨Outcome.ret none, [LogEntry.consoleLog "Error: Invalid restaurantId received: "], 0⟩
    else
      ⟨Outcome.ret (some (((rdb.find? (fun kv => kv.fst == rid)).map Prod.snd).getD [])), [], 1⟩

/-- `getReviewsSnapshotByRestaurantId` (lines 235-255): checks the id — and,
unlike the other two subscription helpers, performs no callback check — then
registers the listener. -/
def getReviewsSnapshotByRestaurantId (restaurantId : Option String)
    (_cbIsFunction : Bool) : CallResult Unit :=
  match restaurantId with
  | none => ⟨Outcome.ret none, [LogEntry.consoleLog "Error: Invalid restaurantId received: "], 0⟩
  | some rid =>
    if rid == "" then
      ⟨Outcome.ret none, [LogEntry.consoleLog "Error: Invalid restaurantId received: "], 0⟩
    else
      ⟨Outcome.ret (some ()), [], 1⟩

/-! ## `getRestaurants` and its self-referential default parameter (lines 128-140) -/

/-- An opaque Firestore database handle. -/
structure DbHandle where
  tag : Nat
  deriving DecidableEq

/-- State of a `let`-like binding during scope resolution: still in its
temporal dead zone, or initialized to a value. -/
inductive ParamBinding (α : Type)
  | tdz
  | val (v : α)

/-- JavaScript resolution of the identifier `db` inside the default-value
expression of `getRestaurants(db = db, ...)`: default expressions are evaluated
in the parameter scope, where the parameter's own binding shadows the
module-level `db` import; while its default is being evaluated the parameter is
still in its temporal dead zone, so the access throws a `ReferenceError`. The
module-level handle is shadowed and never consulted. -/
def resolveDefaultDbExpr (paramDb : ParamBinding DbHandle) (_moduleDb : DbHandle) :
    Except JsErr DbHandle :=
  match paramDb with
  | ParamBinding.tdz => Except.error JsErr.referenceError
  | ParamBinding.val v => Except.ok v

/-- `results.docs.map(...)` of `getRestaurants`: converts each document's
stored timestamp, throwing a `TypeError` on a document without one. -/
def mapRestaurantDocs : List RestaurantDoc → Except JsErr (List MappedRestaurant)
  | [] => Except.ok []
  | d :: rest =>
    match d.timestamp with
    | none => Except.error JsErr.typeError
    | some t => (mapRestaurantDocs rest).map (fun rs => ⟨d.name, d.avgRating, t⟩ :: rs)

/-- Result of a `getRestaurants` call; `composedQuery` records whether (and
which) query was composed before the call ended. -/
structure ListResult where
  outcome : Outcome (List MappedRestaurant)
  composedQuery : Option Query
  storeCalls : Nat
  deriving DecidableEq

/-- `getRestaurants` (lines 128-140). `dbArg = none` models omitting the first
argument, which evaluates the self-referential default `db = db`; `docs` is the
external store's answer to the composed query. -/
def getRestaurants (dbArg : Option DbHandle) (moduleDb : DbHandle) (f : Filters)
    (docs : List RestaurantDoc) : ListResult :=
  match (match dbArg with
         | some v => Except.ok v
         | none => resolveDefaultDbExpr ParamBinding.tdz moduleDb) with
  | Except.error e => ⟨Outcome.thrown e, none, 0⟩
  | Except.ok _ =>
    let q := applyQueryFilters emptyQuery f
    match mapRestaurantDocs docs with
    | Except.ok rs => ⟨Outcome.ret (some rs), some q, 1⟩
    | Except.error e => ⟨Outcome.thrown e, some q, 1⟩

theorem mapRestaurantDocs_error_is_typeError (docs : List RestaurantDoc) (e : JsErr)
    (h : mapRestaurantDocs docs = Except.error e) : e = JsErr.typeError := by
  induction docs with
  | nil => simp [mapRestaurantDocs] at h
  | cons d rest ih =>
    rcases hd : d.timestamp with _ | t
    · simp [mapRestaurantDocs, hd] at h
      first
      | exact h
      | exact h.symm
    · simp only [mapRestaurantDocs, hd] at h
      rcases hr : mapRestaurantDocs rest with e' | rs <;> rw [hr] at h <;>
        simp [Except.map] at h
      exact ih (h ▸ hr)

/-! ## Claim theorems -/

/-- C1: for every current restaurant snapshot and every review, the aggregation
transaction computes `newNumRatings = currentNumRatings + 1` (missing/undefined/
zero current count treated as 0, so the first review yields 1),
`newSumRating = currentSumRating (default 0) + rating`, and
`newAvgRating = newSumRating / newNumRatings`, and writes exactly these three
values back; a rating-4 review on `{numRatings: 0, sumRating: 0}` yields
`{numRatings: 1, sumRating: 4, avgRating: 4}`. -/
theorem aggregation_formula (data : Option RestaurantAgg) (rating : Rat) :
    (computeNewAgg data rating).numRatings = specCurrentNumRatings data + 1
    ∧ (computeNewAgg data rating).sumRating = specCurrentSumRating data + rating
    ∧ (computeNewAgg data rating).avgRating
        = (computeNewAgg data rating).sumRating / (computeNewAgg data rating).numRatings
    ∧ (∀ (store : Store) (d : RestaurantAgg) (review : Review) (now : Int),
        store.restaurant = some d →
        updateWithRating store review now =
          some ⟨some { d with
                numRatings := some (computeNewAgg (some d) review.rating).numRatings,
                sumRating := some (computeNewAgg (some d) review.rating).sumRating,
                avgRating := some (computeNewAgg (some d) review.rating).avgRating },
              store.ratings ++ [stampReview review now]⟩)
    ∧ computeNewAgg (some { numRatings := some 0, sumRating := some 0 }) 4 = ⟨1, 4, 4⟩ := by
  refine ⟨?_, ?_, ?_, ?_, ?_⟩
  · rcases data with _ | d
    · simp [computeNewAgg, specCurrentNumRatings]
    · rcases hn : d.numRatings with _ | n <;>
        simp [computeNewAgg, specCurrentNumRatings, hn]
  · rcases data with _ | d
    · simp [computeNewAgg, specCurrentSumRating]
    · rcases hs : d.sumRating with _ | s <;>
        simp [computeNewAgg, specCurrentSumRating, hs]
      intro h0
      exact h0.symm
  · rfl
  · intro store d review now h
    simp [updateWithRating, h]
  · norm_num [computeNewAgg]

/-- C1 witness: the round-trip instance — a rating-4 review applied at a store
holding `{numRatings: 0, sumRating: 0}` writes `{numRatings: 1, sumRating: 4,
avgRating: 4}` and appends the stamped review. -/
theorem aggregation_formula_witness :
    updateWithRating ⟨some { numRatings := some 0, sumRating := some 0 }, []⟩
        { rating := 4 } 7 =
      some ⟨some { numRatings := some 1, sumRating := some 4, avgRating := some 4 },
            [⟨4, "", "", "", 7⟩]⟩ := by
  have h := (aggregation_formula none 0).2.2.2.1
    ⟨some { numRatings := some 0, sumRating := some 0 }, []⟩
    { numRatings := some 0, sumRating := some 0 } { rating := 4 } 7 rfl
  rw [h]
  norm_num [computeNewAgg, stampReview]

/-- C3: the composed query carries one equality predicate per present (truthy)
filter option, on the corresponding field, and absent/falsy options are skipped
with no error; `{category: "Indian", sort: "Review"}` composes to exactly the
predicate `category == "Indian"` plus the ordering `numRatings desc`, and `{}`
composes to the default ordering `avgRating desc` alone. -/
theorem filters_eq_predicates (q : Query) (f : Filters) :
    (applyQueryFilters q f).wheres = q.wheres ++ specEqPredicates f
    ∧ applyQueryFilters emptyQuery { category := some "Indian", sort := some "Review" }
        = ⟨[⟨"category", QVal.str "Indian"⟩], [⟨"numRatings", OrderDir.desc⟩]⟩
    ∧ applyQueryFilters emptyQuery {}
        = ⟨[], [⟨"avgRating", OrderDir.desc⟩]⟩ :=
  ⟨applyQueryFilters_wheres q f, by decide, by decide⟩

/-- C4: a present price symbol string produces an equality predicate on the
integer length of that string. -/
theorem price_tier_predicate (q : Query) (f : Filters) (p : String)
    (hp : f.price = some p) (hne : p ≠ "") :
    WhereEq.mk "price" (QVal.int p.length) ∈ (applyQueryFilters q f).wheres := by
  rw [applyQueryFilters_wheres q f]
  rcases f with ⟨c, ci, pr, s⟩
  cases hp
  simp [specEqPredicates, hne]

/-- C4 witness: price `"$$"` yields the predicate `price == 2`. -/
theorem price_tier_predicate_witness :
    WhereEq.mk "price" (QVal.int ("$$".length)) ∈
        (applyQueryFilters emptyQuery { price := some "$$" }).wheres
    ∧ ("$$".length : Int) = 2 :=
  ⟨price_tier_predicate emptyQuery { price := some "$$" } "$$" rfl (by decide), by decide⟩

/-- C7: the review record inserted by the transaction carries the
transaction-assigned timestamp, overriding any caller-supplied `timestamp`
field, and every other payload field is passed through unmodified. -/
theorem review_timestamp_override (review : Review) (now : Int) (t : Option Int) :
    (stampReview review now).timestamp = now
    ∧ stampReview { review with timestamp := t } now = stampReview review now
    ∧ (stampReview review now).rating = review.rating
    ∧ (stampReview review now).text = review.text
    ∧ (stampReview review now).userName = review.userName
    ∧ (stampReview review now).userId = review.userId
    ∧ (∀ (d : RestaurantAgg) (rs : List StoredReview),
        (updateWithRating ⟨some d, rs⟩ review now).map Store.ratings
          = some (rs ++ [stampReview review now])) :=
  ⟨rfl, rfl, rfl, rfl, rfl, rfl, fun _ _ => rfl⟩

/-- C2 counterexample: with the unrecognized sort value `"Newest"` the composed
query carries no ordering predicate at all — it does not fall back to the
default `avgRating` descending ordering. -/
theorem sort_fallback_counterexample :
    (applyQueryFilters emptyQuery { sort := some "Newest" }).orders = []
    ∧ (applyQueryFilters emptyQuery { sort := some "Newest" }).orders
        ≠ [⟨"avgRating", OrderDir.desc⟩] := by
  constructor <;> decide

/-- C2 amended: at most one ordering predicate is ever applied — `numRatings`
descending when sort is `"Review"`, `avgRating` descending when sort is
`"Rating"` or absent/falsy, and no ordering predicate at all when sort is any
other (truthy) unrecognized value. -/
theorem sort_ordering (q : Query) (f : Filters) :
    (applyQueryFilters q f).orders = q.orders ++ specOrderings f
    ∧ (specOrderings f).length ≤ 1 := by
  refine ⟨applyQueryFilters_orders q f, ?_⟩
  unfold specOrderings
  split
  · simp
  · split <;> simp

/-- C5: a falsy restaurant identifier or an absent review payload makes
`addReviewToRestaurant` raise its argument-validation error before any store
interaction (zero store calls, nothing logged, store untouched); with a truthy
identifier and a present payload no argument-validation error is ever raised. -/
theorem addReview_preconditions (store : Store) (restaurantId : Option String)
    (review : Option Review) (now : Int) (txFail : Option Nat) :
    (truthyStr restaurantId = false →
      addReviewToRestaurant store restaurantId review now txFail =
        ⟨store, [], TxResult.err (Err.invalidArgument "No restaurant ID has been provided."), 0⟩)
    ∧ (truthyStr restaurantId = true →
      addReviewToRestaurant store restaurantId none now txFail =
        ⟨store, [], TxResult.err (Err.invalidArgument "A valid review has not been provided."), 0⟩)
    ∧ (truthyStr restaurantId = true → ∀ (r : Review), review = some r →
      ∀ (msg : String),
        (addReviewToRestaurant store restaurantId review now txFail).result
          ≠ TxResult.err (Err.invalidArgument msg)) := by
  refine ⟨?_, ?_, ?_⟩
  · intro h
    simp [addReviewToRestaurant, h]
  · intro h
    simp [addReviewToRestaurant, h]
  · intro h r hr msg
    subst hr
    simp only [addReviewToRestaurant, h, Bool.not_true, Bool.false_eq_true, if_false]
    rcases hrun : runTransaction store r now txFail with ⟨store2, res⟩
    rcases res with _ | e
    · simp
    · have he : ∃ code, e = Err.external code := by
        unfold runTransaction at hrun
        rcases txFail with _ | code
        · rcases hu : updateWithRating store r now with _ | s2 <;>
            rw [hu] at hrun <;> simp at hrun
          exact ⟨5, hrun.2.symm⟩
        · simp at hrun
          exact ⟨code, hrun.2.symm⟩
      rcases he with ⟨code, rfl⟩
      simp

/-- C5 witness: the preconditions at concrete inputs — empty-string id,
missing review, and a well-formed call. -/
theorem addReview_preconditions_witness :
    addReviewToRestaurant ⟨none, []⟩ (some "") (some { rating := 4 }) 0 none =
      ⟨⟨none, []⟩, [], TxResult.err (Err.invalidArgument "No restaurant ID has been provided."), 0⟩
    ∧ addReviewToRestaurant ⟨none, []⟩ (some "r1") none 0 none =
      ⟨⟨none, []⟩, [], TxResult.err (Err.invalidArgument "A valid review has not been provided."), 0⟩
    ∧ ∀ (msg : String),
        (addReviewToRestaurant ⟨none, []⟩ (some "r1") (some { rating := 4 }) 0 none).result
          ≠ TxResult.err (Err.invalidArgument msg) :=
  ⟨(addReview_preconditions ⟨none, []⟩ (some "") (some { rating := 4 }) 0 none).1 (by decide),
   (addReview_preconditions ⟨none, []⟩ (some "r1") none 0 none).2.1 (by decide),
   fun msg =>
     (addReview_preconditions ⟨none, []⟩ (some "r1") (some { rating := 4 }) 0 none).2.2
       (by decide) { rating := 4 } rfl msg⟩

/-- C6: every error surfaced by the transaction — a store-signalled failure
(read failure or irrecoverable conflict) or an abort of the transaction body —
is logged exactly once and re-thrown identically, and the store (aggregates and
review records) is left exactly as it was. -/
theorem addReview_error_propagation (store : Store) (rid : String) (r : Review)
    (now : Int) (hrid : rid ≠ "") :
    (∀ (code : Nat),
      addReviewToRestaurant store (some rid) (some r) now (some code) =
        ⟨store,
         [LogEntry.consoleError "There was an error adding the rating to the restaurant"
            (Err.external code)],
         TxResult.err (Err.external code), 1⟩)
    ∧ (store.restaurant = none →
      addReviewToRestaurant store (some rid) (some r) now none =
        ⟨store,
         [LogEntry.consoleError "There was an error adding the rating to the restaurant"
            (Err.external 5)],
         TxResult.err (Err.external 5), 1⟩) := by
  constructor
  · intro code
    simp [addReviewToRestaurant, truthyStr, hrid, runTransaction]
  · intro h
    simp [addReviewToRestaurant, truthyStr, hrid, runTransaction, updateWithRating, h]

/-- C6 witness: a store failure with code 13 at a concrete call is logged once,
re-thrown identically, and leaves the store unchanged. -/
theorem addReview_error_propagation_witness :
    addReviewToRestaurant ⟨some { numRatings := some 2 }, []⟩ (some "r1")
        (some { rating := 4 }) 0 (some 13) =
      ⟨⟨some { numRatings := some 2 }, []⟩,
       [LogEntry.consoleError "There was an error adding the rating to the restaurant"
          (Err.external 13)],
       TxResult.err (Err.external 13), 1⟩ :=
  (addReview_error_propagation ⟨some { numRatings := some 2 }, []⟩ "r1"
    { rating := 4 } 0 (by decide)).1 13

/-- C8 counterexample: the reviews-subscription helper performs no callback
check — called with a valid id and a non-callable callback it registers the
listener (one store interaction), logs nothing, and returns the unsubscribe
handle rather than `undefined`. -/
theorem reviews_snapshot_no_callback_check :
    getReviewsSnapshotByRestaurantId (some "r1") false =
      ⟨Outcome.ret (some ()), [], 1⟩
    ∧ (getReviewsSnapshotByRestaurantId (some "r1") false).storeCalls ≠ 0 := by
  constructor <;> decide

/-- C8 amended: every read/subscription helper called with a falsy identifier,
and the restaurants-list and single-restaurant subscription helpers called with
a non-callable callback, never throw: they log one diagnostic and return
`undefined` with zero store interactions — but the reviews-subscription helper
performs no callback check. -/
theorem soft_fail_helpers (db : RestaurantsDb) (rdb : RatingsDb) (f : Filters)
    (b : Bool) (rid : String) :
    getRestaurantById db none =
      ⟨Outcome.ret none, [LogEntry.consoleLog "Error: Invalid ID received: "], 0⟩
    ∧ getRestaurantById db (some "") =
      ⟨Outcome.ret none, [LogEntry.consoleLog "Error: Invalid ID received: "], 0⟩
    ∧ getRestaurantSnapshotById none b =
      ⟨Outcome.ret none, [LogEntry.consoleLog "Error: Invalid ID received: "], 0⟩
    ∧ getRestaurantSnapshotById (some "") b =
      ⟨Outcome.ret none, [LogEntry.consoleLog "Error: Invalid ID received: "], 0⟩
    ∧ getReviewsByRestaurantId rdb none =
      ⟨Outcome.ret none, [LogEntry.consoleLog "Error: Invalid restaurantId received: "], 0⟩
    ∧ getReviewsByRestaurantId rdb (some "") =
      ⟨Outcome.ret none, [LogEntry.consoleLog "Error: Invalid restaurantId received: "], 0⟩
    ∧ getReviewsSnapshotByRestaurantId none b =
      ⟨Outcome.ret none, [LogEntry.consoleLog "Error: Invalid restaurantId received: "], 0⟩
    ∧ getReviewsSnapshotByRestaurantId (some "") b =
      ⟨Outcome.ret none, [LogEntry.consoleLog "Error: Invalid restaurantId received: "], 0⟩
    ∧ getRestaurantsSnapshot false f =
      ⟨Outcome.ret none, [LogEntry.consoleLog "Error: The callback parameter is not a function"], 0⟩
    ∧ (rid ≠ "" → getRestaurantSnapshotById (some rid) false =
      ⟨Outcome.ret none, [LogEntry.consoleLog "Error: The callback parameter is not a function"], 0⟩) := by
  refine ⟨rfl, rfl, rfl, rfl, rfl, rfl, rfl, rfl, rfl, ?_⟩
  intro h
  simp [getRestaurantSnapshotById, h]

/-- C8 witness: the amended behaviours at concrete inputs, including the
callback check of the single-restaurant subscription helper at id `"r1"`. -/
theorem soft_fail_helpers_witness :
    getRestaurantById [] none =
      ⟨Outcome.ret none, [LogEntry.consoleLog "Error: Invalid ID received: "], 0⟩
    ∧ getRestaurantSnapshotById (some "r1") false =
      ⟨Outcome.ret none, [LogEntry.consoleLog "Error: The callback parameter is not a function"], 0⟩ := by
  have h := soft_fail_helpers [] [] {} true "r1"
  exact ⟨h.1, h.2.2.2.2.2.2.2.2.2 (by decide)⟩

/-- C9: a truthy identifier that resolves to no document yields no
distinguished not-found result — the snapshot's `data()` is `undefined` and the
timestamp-conversion step of the mapping throws a `TypeError` (after the one
store read). -/
theorem getById_read_miss (db : RestaurantsDb) (rid : String)
    (h1 : rid ≠ "") (h2 : dbLookup db rid = none) :
    getRestaurantById db (some rid) = ⟨Outcome.thrown JsErr.typeError, [], 1⟩ := by
  simp [getRestaurantById, h1, h2]

/-- C9 witness: looking up the absent id `"nope"` in an empty collection throws
the `TypeError`. -/
theorem getById_read_miss_witness :
    getRestaurantById [] (some "nope") = ⟨Outcome.thrown JsErr.typeError, [], 1⟩ :=
  getById_read_miss [] "nope" (by decide) rfl

/-- C10: omitting the store-handle argument of `getRestaurants` evaluates the
self-referential default `db = db`, which throws a `ReferenceError` before any
query is composed or any store call is made, for every value of the shadowed
module-level handle; with an explicitly passed handle no `ReferenceError` can
arise. -/
theorem getRestaurants_default_db (moduleDb : DbHandle) (f : Filters)
    (docs : List RestaurantDoc) :
    getRestaurants none moduleDb f docs =
      ⟨Outcome.thrown JsErr.referenceError, none, 0⟩
    ∧ ∀ (v : DbHandle),
        (getRestaurants (some v) moduleDb f docs).outcome
          ≠ Outcome.thrown JsErr.referenceError := by
  constructor
  · rfl
  · intro v
    simp only [getRestaurants]
    rcases hm : mapRestaurantDocs docs with e | rs
    · have := mapRestaurantDocs_error_is_typeError docs e hm
      subst this
      simp [resolveDefaultDbExpr]
    · simp [resolveDefaultDbExpr]

end FirestoreJs
